import Mathlib

/-!
Shallow embedding of the foodgram recipe-sharing backend
(`backend/api/models.py`, `backend/api/serializers.py`,
`backend/api/views.py`, `backend/api/filters.py`) together with proofs
about the spec claims.

The relational store is modelled as lists of rows; Django querysets become
list filters; fallible request handlers return `Except String Db`.
-/

namespace Foodgram

/-- Shared bound from `serializers.py` / `models.py`: `MIN_VALUE = 1`. -/
def MIN_VALUE : Int := 1

/-- Shared bound from `serializers.py` / `models.py`: `MAX_VALUE = 32000`. -/
def MAX_VALUE : Int := 32000

/-- `api/models.py` `Ingredient`: name and measurement unit (no uniqueness
constraint on the pair). -/
structure Ingredient where
  id : Nat
  name : String
  measurement_unit : String
deriving DecidableEq, Repr

/-- `api/models.py` `Tag`: unique name and slug. -/
structure Tag where
  id : Nat
  name : String
  slug : String
deriving DecidableEq, Repr

/-- `api/models.py` `Recipe` (image and created_at are boundary concerns not
needed by any claim and are omitted). -/
structure Recipe where
  id : Nat
  author : Nat
  name : String
  text : String
  cooking_time : Int
deriving DecidableEq, Repr

/-- `api/models.py` `IngredientInRecipe`: join row with an amount. -/
structure IngredientInRecipe where
  ingredient : Nat
  recipe : Nat
  amount : Int
deriving DecidableEq, Repr

/-- The relational store: one list of rows per table.  `recipe_tags` is the
implicit many-to-many table behind `Recipe.tags`; `shopping_cart`,
`favorites` and `subscriptions` hold `(user, target)` pairs as in
`ShoppingCart`, `Favorite` and `Subscription`. -/
structure Db where
  users : List Nat
  ingredients : List Ingredient
  tags : List Tag
  recipes : List Recipe
  ingredient_in_recipe : List IngredientInRecipe
  recipe_tags : List (Nat × Nat)
  shopping_cart : List (Nat × Nat)
  favorites : List (Nat × Nat)
  subscriptions : List (Nat × Nat)
deriving DecidableEq, Repr

/-- `Except` result that carries a state on success: `true` iff ok. -/
def exceptOk {ε α : Type} : Except ε α → Bool
  | Except.ok _ => true
  | Except.error _ => false

/-! ## Shopping list aggregation (`views.py` `download_shopping_cart`) -/

/-- `user.shopping_cart.values_list('recipe', flat=True)`. -/
def cartRecipeIds (db : Db) (user : Nat) : List Nat :=
  (db.shopping_cart.filter (fun c => c.1 == user)).map (fun c => c.2)

/-- `IngredientInRecipe.objects.filter(recipe__in=...)`. -/
def cartIngredientRows (db : Db) (user : Nat) : List IngredientInRecipe :=
  db.ingredient_in_recipe.filter (fun r => (cartRecipeIds db user).contains r.recipe)

/-- Foreign-key lookup of an ingredient row by id. -/
def findIngredient (db : Db) (iid : Nat) : Option Ingredient :=
  db.ingredients.find? (fun i => i.id == iid)

/-- The SQL join `.values('ingredient__name', 'ingredient__measurement_unit')`
together with the raw `amount`: each cart row keyed by the name/unit of its
ingredient. -/
def joinedRows (db : Db) (user : Nat) : List ((String × String) × Int) :=
  (cartIngredientRows db user).filterMap
    (fun r => (findIngredient db r.ingredient).map
      (fun i => ((i.name, i.measurement_unit), r.amount)))

/-- The distinct grouping keys of the SQL `GROUP BY name, unit` (SQL leaves
the group order unspecified; the model picks the deterministic `dedup`
order). -/
def groupKeys (db : Db) (user : Nat) : List (String × String) :=
  ((joinedRows db user).map Prod.fst).dedup

/-- `Sum('amount')` for one group key. -/
def amountTotal (db : Db) (user : Nat) (k : String × String) : Int :=
  (((joinedRows db user).filter (fun p => decide (p.1 = k))).map Prod.snd).sum

/-- The aggregated query result: one `(key, total)` row per distinct key. -/
def shoppingListPairs (db : Db) (user : Nat) : List ((String × String) × Int) :=
  (groupKeys db user).map (fun k => (k, amountTotal db user k))

/-- One output line `f"{...name} ({...unit}) - {...total}\n"` of the loop in
`download_shopping_cart`. -/
def formatLine (k : String × String) (a : Int) : String :=
  k.1 ++ " (" ++ k.2 ++ ") - " ++ toString a ++ "\n"

/-- The lines accumulated by the loop, in query order. -/
def shoppingListLines (db : Db) (user : Nat) : List String :=
  (shoppingListPairs db user).map (fun p => formatLine p.1 p.2)

/-- The full text body returned as the attachment. -/
def download_shopping_cart (db : Db) (user : Nat) : String :=
  String.join (shoppingListLines db user)

/-! ## Recipe write pipeline (`serializers.py` `RecipeWriteSerializer`,
`views.py` `RecipeViewSet.create` / `RecipeViewSet.update`) -/

/-- One entry of the `ingredients` payload list
(`IngredientWriteSerializer`): an ingredient id and an amount. -/
structure IngredientEntry where
  id : Nat
  amount : Int
deriving DecidableEq, Repr

/-- A recipe write payload.  `none` means the key is absent (partial
update); the image field is a boundary codec not needed by any claim and is
omitted. -/
structure RecipePayload where
  ingredients : Option (List IngredientEntry)
  tags : Option (List Nat)
  name : Option String
  text : Option String
  cooking_time : Option Int
deriving DecidableEq, Repr

/-- `IntegerField(min_value=MIN_VALUE, max_value=MAX_VALUE)` on `amount`. -/
def amount_valid (v : Int) : Bool :=
  decide (MIN_VALUE ≤ v) && decide (v ≤ MAX_VALUE)

/-- `IntegerField(min_value=MIN_VALUE, max_value=MAX_VALUE)` on
`cooking_time`. -/
def cooking_time_valid (v : Int) : Bool :=
  decide (MIN_VALUE ≤ v) && decide (v ≤ MAX_VALUE)

/-- Field validation of the `ingredients` key: per-entry
`PrimaryKeyRelatedField` existence and `amount` bounds, then
`validate_ingredients` (non-empty, no repeated ingredient id).  An absent
key is skipped at field level. -/
def validateIngredientsField (db : Db) : Option (List IngredientEntry) → Except String Unit
  | none => Except.ok ()
  | some l =>
    if l.any (fun e => (findIngredient db e.id).isNone) then
      Except.error "ingredients: object does not exist"
    else if l.any (fun e => !(amount_valid e.amount)) then
      Except.error "ingredients: amount out of range"
    else if l.isEmpty then
      Except.error "ingredients: need at least one ingredient"
    else if (l.map (fun e => e.id)).Nodup then
      Except.ok ()
    else
      Except.error "ingredients: must not repeat"

/-- Field validation of the `tags` key: per-entry `PrimaryKeyRelatedField`
existence, then `validate_tags` (non-empty, no repeats). -/
def validateTagsField (db : Db) : Option (List Nat) → Except String Unit
  | none => Except.ok ()
  | some l =>
    if l.any (fun t => !(db.tags.any (fun tg => tg.id == t))) then
      Except.error "tags: object does not exist"
    else if l.isEmpty then
      Except.error "tags: need at least one tag"
    else if l.Nodup then
      Except.ok ()
    else
      Except.error "tags: must not repeat"

/-- Field validation of the `cooking_time` key. -/
def validateCookingTimeField : Option Int → Except String Unit
  | none => Except.ok ()
  | some ct =>
    if cooking_time_valid ct then Except.ok ()
    else Except.error "cooking_time: out of range"

/-- All field-level validation, in field declaration order; runs before the
serializer-level `validate` and before any write. -/
def validateFields (db : Db) (p : RecipePayload) : Except String Unit :=
  match validateIngredientsField db p.ingredients with
  | Except.error e => Except.error e
  | Except.ok _ =>
    match validateTagsField db p.tags with
    | Except.error e => Except.error e
    | Except.ok _ => validateCookingTimeField p.cooking_time

/-- `create_ingredients`: `bulk_create` of one `IngredientInRecipe` row per
submitted `(ingredient, amount)` pair. -/
def create_ingredients (db : Db) (rid : Nat) (ing : List IngredientEntry) : Db :=
  { db with ingredient_in_recipe :=
      db.ingredient_in_recipe ++
        ing.map (fun e => { ingredient := e.id, recipe := rid, amount := e.amount }) }

/-- `instance.ingredients.clear()`: delete every join row of this recipe. -/
def clearIngredients (db : Db) (rid : Nat) : Db :=
  { db with ingredient_in_recipe :=
      db.ingredient_in_recipe.filter (fun r => !(r.recipe == rid)) }

/-- `instance.tags.set(tags_data)`: replace the tag links of this recipe. -/
def setTags (db : Db) (rid : Nat) (tg : List Nat) : Db :=
  { db with recipe_tags :=
      db.recipe_tags.filter (fun rt => !(rt.1 == rid)) ++ tg.map (fun t => (rid, t)) }

/-- The `setattr` loop of `RecipeWriteSerializer.update` followed by
`instance.save()`: scalar fields present in the payload overwrite the row,
absent ones are kept. -/
def updateRecipeAttrs (db : Db) (rid : Nat) (p : RecipePayload) : Db :=
  { db with recipes := db.recipes.map (fun r =>
      if r.id == rid then
        { r with name := p.name.getD r.name,
                 text := p.text.getD r.text,
                 cooking_time := p.cooking_time.getD r.cooking_time }
      else r) }

/-- `RecipeViewSet.create`: `is_valid(raise_exception=True)` (field
validation, then the serializer `validate` presence checks) and only then
`serializer.save`, which creates the recipe row, sets tags and bulk-creates
the ingredient rows.  `rid` is the fresh primary key chosen by the store. -/
def recipe_create (db : Db) (author rid : Nat) (p : RecipePayload) : Except String Db :=
  match validateFields db p with
  | Except.error e => Except.error e
  | Except.ok _ =>
    if p.ingredients.isNone then Except.error "ingredients: this field is required"
    else if p.tags.isNone then Except.error "tags: this field is required"
    else
      match p.ingredients, p.tags, p.name, p.text, p.cooking_time with
      | some ing, some tg, some nm, some tx, some ct =>
        Except.ok (create_ingredients
          (setTags
            { db with recipes := db.recipes ++
                [{ id := rid, author := author, name := nm, text := tx, cooking_time := ct }] }
            rid tg)
          rid ing)
      | _, _, _, _, _ => Except.error "field required"

/-- `RecipeViewSet.update` + `RecipeWriteSerializer.update`: 404 when the
recipe id is unknown, then validation (the serializer `validate` rejects a
payload whose `ingredients` or `tags` key is absent), then scalar
attributes, `tags.set`, and clear-then-bulk-create of the ingredient
rows. -/
def recipe_update (db : Db) (rid : Nat) (p : RecipePayload) : Except String Db :=
  if !(db.recipes.any (fun r => r.id == rid)) then Except.error "404: recipe not found"
  else
    match validateFields db p with
    | Except.error e => Except.error e
    | Except.ok _ =>
      if p.ingredients.isNone then Except.error "ingredients: this field is required"
      else if p.tags.isNone then Except.error "tags: this field is required"
      else
        let db1 := updateRecipeAttrs db rid p
        let db2 := match p.tags with
          | some tg => setTags db1 rid tg
          | none => db1
        let db3 := match p.ingredients with
          | some ing => create_ingredients (clearIngredients db2 rid) rid ing
          | none => db2
        Except.ok db3

/-! ## Relationship toggles (`views.py`) -/

/-- `RecipeViewSet.add_to_shopping_cart`: 404 on unknown recipe, conflict
when the `(user, recipe)` pair already exists, else insert. -/
def shopping_cart_add (db : Db) (user rid : Nat) : Except String Db :=
  if !(db.recipes.any (fun r => r.id == rid)) then Except.error "404: recipe not found"
  else if db.shopping_cart.any (fun c => c.1 == user && c.2 == rid) then
    Except.error "recipe already in shopping cart"
  else Except.ok { db with shopping_cart := db.shopping_cart ++ [(user, rid)] }

/-- `RecipeViewSet.remove_from_shopping_cart`: 404 on unknown recipe, error
when the pair does not exist, else delete every matching row. -/
def shopping_cart_remove (db : Db) (user rid : Nat) : Except String Db :=
  if !(db.recipes.any (fun r => r.id == rid)) then Except.error "404: recipe not found"
  else if !(db.shopping_cart.any (fun c => c.1 == user && c.2 == rid)) then
    Except.error "recipe not in shopping cart"
  else
    let kept := db.shopping_cart.filter (fun c => !(c.1 == user && c.2 == rid))
    Except.ok { db with shopping_cart := kept }

/-- `RecipeViewSet.add_to_favorite`. -/
def favorite_add (db : Db) (user rid : Nat) : Except String Db :=
  if !(db.recipes.any (fun r => r.id == rid)) then Except.error "404: recipe not found"
  else if db.favorites.any (fun c => c.1 == user && c.2 == rid) then
    Except.error "recipe already in favorites"
  else Except.ok { db with favorites := db.favorites ++ [(user, rid)] }

/-- `RecipeViewSet.remove_from_favorite`. -/
def favorite_remove (db : Db) (user rid : Nat) : Except String Db :=
  if !(db.recipes.any (fun r => r.id == rid)) then Except.error "404: recipe not found"
  else if !(db.favorites.any (fun c => c.1 == user && c.2 == rid)) then
    Except.error "recipe not in favorites"
  else
    let kept := db.favorites.filter (fun c => !(c.1 == user && c.2 == rid))
    Except.ok { db with favorites := kept }

/-- `CustomUserViewSet.subscribe`: `get_object_or_404`, then the
self-subscription check, then the existence check, then insert. -/
def subscribe_author (db : Db) (user aid : Nat) : Except String Db :=
  if !(db.users.any (fun x => x == aid)) then Except.error "404: user not found"
  else if user == aid then Except.error "cannot subscribe to yourself"
  else if db.subscriptions.any (fun s => s.1 == user && s.2 == aid) then
    Except.error "already subscribed to this user"
  else Except.ok { db with subscriptions := db.subscriptions ++ [(user, aid)] }

/-- `CustomUserViewSet.unsubscribe`. -/
def unsubscribe_author (db : Db) (user aid : Nat) : Except String Db :=
  if !(db.users.any (fun x => x == aid)) then Except.error "404: user not found"
  else if !(db.subscriptions.any (fun s => s.1 == user && s.2 == aid)) then
    Except.error "not subscribed to this user"
  else
    let kept := db.subscriptions.filter (fun s => !(s.1 == user && s.2 == aid))
    Except.ok { db with subscriptions := kept }

/-! ## Recipe list filtering (`views.py` `get_queryset`,
`filters.py` `RecipeFilter`) -/

/-- Query parameters of the recipe list endpoint.  The two boolean flags
arrive as raw strings; `author` is the already-parsed author id; `tags` is
the multi-valued slug parameter. -/
structure RecipeQuery where
  is_favorited : Option String
  is_in_shopping_cart : Option String
  author : Option Nat
  tags : List String
deriving DecidableEq, Repr

/-- Django `NullBooleanField.to_python` used by `BooleanFilter`: recognised
truthy and falsy spellings, anything else cleans to `None` and the filter
is skipped. -/
def parseNullBool : String → Option Bool
  | "true" => some true
  | "True" => some true
  | "1" => some true
  | "false" => some false
  | "False" => some false
  | "0" => some false
  | _ => none

/-- `RecipeViewSet.get_queryset`: the two query parameters are applied
directly (value compared against the literal string `'1'`), and only when
the caller is authenticated (`user = some u`). -/
def get_queryset (db : Db) (user : Option Nat) (q : RecipeQuery) : List Nat :=
  let qs0 := db.recipes.map (fun r => r.id)
  let qs1 :=
    match q.is_in_shopping_cart, user with
    | some v, some u =>
        qs0.filter (fun rid =>
          (db.shopping_cart.any (fun c => c.1 == u && c.2 == rid)) == (v == "1"))
    | _, _ => qs0
  match q.is_favorited, user with
  | some v, some u =>
      qs1.filter (fun rid =>
        (db.favorites.any (fun c => c.1 == u && c.2 == rid)) == (v == "1"))
  | _, _ => qs1

/-- `RecipeFilter.filter_is_favorited`: filters only when the caller is
authenticated and the cleaned value is truthy, otherwise a no-op. -/
def filter_is_favorited (db : Db) (user : Option Nat) (qs : List Nat) (value : Bool) : List Nat :=
  match user with
  | some u =>
      if value then qs.filter (fun rid => db.favorites.any (fun c => c.1 == u && c.2 == rid))
      else qs
  | none => qs

/-- `RecipeFilter.filter_is_in_shopping_cart`. -/
def filter_is_in_shopping_cart (db : Db) (user : Option Nat) (qs : List Nat) (value : Bool) : List Nat :=
  match user with
  | some u =>
      if value then qs.filter (fun rid => db.shopping_cart.any (fun c => c.1 == u && c.2 == rid))
      else qs
  | none => qs

/-- `tags__slug` traversal: recipe `rid` is linked to a tag whose slug is
`s`. -/
def recipeHasTagSlug (db : Db) (rid : Nat) (s : String) : Bool :=
  db.recipe_tags.any (fun rt =>
    rt.1 == rid && db.tags.any (fun t => t.id == rt.2 && t.slug == s))

/-- `ModelMultipleChoiceFilter` on `tags__slug` with the default
`conjoined=False`: OR of one `Q(tags__slug=s)` per value; skipped when the
value list is empty. -/
def filter_tags (db : Db) (qs : List Nat) (slugs : List String) : List Nat :=
  if slugs.isEmpty then qs
  else qs.filter (fun rid => slugs.any (fun s => recipeHasTagSlug db rid s))

/-- Form validation of the `tags` parameter: every submitted slug must name
an existing tag, otherwise the filterset is invalid and the request is
rejected. -/
def tagsParamValid (db : Db) (slugs : List String) : Bool :=
  slugs.all (fun s => db.tags.any (fun t => t.slug == s))

/-- The filterset stage applied on top of `get_queryset`, minus the `tags`
filter: the two boolean filters (cleaned by `parseNullBool`) and the
`author__id` filter. -/
def applyFilters (db : Db) (user : Option Nat) (q : RecipeQuery) : List Nat :=
  let qs := get_queryset db user q
  let qs :=
    match q.is_favorited.bind parseNullBool with
    | some b => filter_is_favorited db user qs b
    | none => qs
  let qs :=
    match q.is_in_shopping_cart.bind parseNullBool with
    | some b => filter_is_in_shopping_cart db user qs b
    | none => qs
  match q.author with
  | some a => qs.filter (fun rid => db.recipes.any (fun r => r.id == rid && r.author == a))
  | none => qs

/-- The recipe list endpoint: filterset validation, then `get_queryset`,
then the filterset filters. -/
def listRecipes (db : Db) (user : Option Nat) (q : RecipeQuery) : Except String (List Nat) :=
  if tagsParamValid db q.tags then
    Except.ok (filter_tags db (applyFilters db user q) q.tags)
  else Except.error "tags: select a valid choice"

/-! ## Concrete stores used by witnesses and counterexamples -/

/-- The §8 example: recipe A has 200 g flour and 3 pcs eggs, recipe B has
300 g flour, and user 7 has both recipes in the cart. -/
def exDb1 : Db :=
  { users := [7, 10]
    ingredients := [⟨1, "flour", "g"⟩, ⟨2, "eggs", "pcs"⟩]
    tags := []
    recipes := [⟨1, 10, "A", "a", 5⟩, ⟨2, 10, "B", "b", 5⟩]
    ingredient_in_recipe := [⟨1, 1, 200⟩, ⟨2, 1, 3⟩, ⟨1, 2, 300⟩]
    recipe_tags := []
    shopping_cart := [(7, 1), (7, 2)]
    favorites := []
    subscriptions := [] }

/-- A store where two in-range amounts (32000 and 16000) of the same
ingredient sum past the per-row bound. -/
def exDb10 : Db :=
  { users := [1]
    ingredients := [⟨1, "flour", "g"⟩]
    tags := []
    recipes := [⟨1, 1, "A", "a", 5⟩, ⟨2, 1, "B", "b", 5⟩]
    ingredient_in_recipe := [⟨1, 1, 32000⟩, ⟨1, 2, 16000⟩]
    recipe_tags := []
    shopping_cart := [(1, 1), (1, 2)]
    favorites := []
    subscriptions := [] }

/-- A store with one recipe (id 1, owned by user 5), three ingredients and
one tag, used by the write-pipeline witnesses. -/
def exDbU : Db :=
  { users := [5]
    ingredients := [⟨1, "salt", "g"⟩, ⟨2, "sugar", "g"⟩, ⟨3, "milk", "ml"⟩]
    tags := [⟨1, "breakfast", "breakfast"⟩]
    recipes := [⟨1, 5, "old name", "old text", 10⟩]
    ingredient_in_recipe := [⟨1, 1, 10⟩]
    recipe_tags := [(1, 1)]
    shopping_cart := []
    favorites := []
    subscriptions := [] }

/-- A valid full update payload replacing the ingredient set of `exDbU`
recipe 1 by two fresh entries. -/
def exPayload2 : RecipePayload :=
  { ingredients := some [⟨2, 4⟩, ⟨3, 6⟩]
    tags := some [1]
    name := some "new name"
    text := some "new text"
    cooking_time := some 20 }

/-- The submitted ingredient list of `exPayload2`. -/
def exIng2 : List IngredientEntry := [⟨2, 4⟩, ⟨3, 6⟩]

/-- The store produced by the successful `exPayload2` update. -/
def exDbU2res : Db :=
  match recipe_update exDbU 1 exPayload2 with
  | Except.ok d => d
  | Except.error _ => exDbU

/-- A payload whose `ingredients` key is absent (tags present and valid). -/
def exPayload3 : RecipePayload :=
  { ingredients := none
    tags := some [1]
    name := some "renamed"
    text := none
    cooking_time := none }

/-- A create payload with the same ingredient id submitted twice. -/
def exPayload4 : RecipePayload :=
  { ingredients := some [⟨1, 2⟩, ⟨1, 3⟩]
    tags := some [1]
    name := some "dup"
    text := some "dup"
    cooking_time := some 5 }

/-- A payload whose `cooking_time` is 0, everything else valid. -/
def exPayload8 : RecipePayload :=
  { ingredients := some [⟨1, 2⟩]
    tags := some [1]
    name := some "ct"
    text := some "ct"
    cooking_time := some 0 }

/-- A store for the relationship state machine: recipe 1 exists, user 1 has
it in the cart and favorites and is subscribed to user 2; user 2 has no
relations. -/
def exDb5 : Db :=
  { users := [1, 2]
    ingredients := []
    tags := []
    recipes := [⟨1, 2, "r", "t", 5⟩]
    ingredient_in_recipe := []
    recipe_tags := []
    shopping_cart := [(1, 1)]
    favorites := [(1, 1)]
    subscriptions := [(1, 2)] }

/-- A store in which user 1 is (inconsistently) already self-subscribed:
used to show the self-check fires before the existence check. -/
def exDb6 : Db :=
  { users := [1]
    ingredients := []
    tags := []
    recipes := []
    ingredient_in_recipe := []
    recipe_tags := []
    shopping_cart := []
    favorites := []
    subscriptions := [(1, 1)] }

/-- A store for the tag filter: recipe 1 carries the `breakfast` tag only,
recipe 2 carries no tag at all, and a `lunch` tag exists unused. -/
def exDb9 : Db :=
  { users := [1]
    ingredients := []
    tags := [⟨1, "breakfast", "breakfast"⟩, ⟨2, "lunch", "lunch"⟩]
    recipes := [⟨1, 1, "A", "a", 5⟩, ⟨2, 1, "B", "b", 5⟩]
    ingredient_in_recipe := []
    recipe_tags := [(1, 1)]
    shopping_cart := []
    favorites := []
    subscriptions := [] }

/-- The multi-valued tag query `?tags=breakfast&tags=lunch`. -/
def exQuery9 : RecipeQuery :=
  { is_favorited := none
    is_in_shopping_cart := none
    author := none
    tags := ["breakfast", "lunch"] }

/-! ## Helper lemmas -/

/-- In a list without duplicates, filtering for one contained element keeps
exactly one entry. -/
theorem length_filter_eq_one_of_nodup {α : Type} [DecidableEq α] {l : List α} {a : α}
    (hnd : l.Nodup) (ha : a ∈ l) :
    (l.filter (fun x => decide (x = a))).length = 1 := by
  induction l with
  | nil => cases ha
  | cons b t ih =>
    rw [List.nodup_cons] at hnd
    obtain ⟨hb, ht⟩ := hnd
    by_cases hba : b = a
    · subst hba
      have hnone : t.filter (fun x => decide (x = b)) = [] := by
        rw [List.filter_eq_nil_iff]
        intro x hx
        simp only [decide_eq_true_eq]
        intro hxb
        exact hb (hxb ▸ hx)
      simp [List.filter_cons, hnone]
    · have hat : a ∈ t := by
        cases ha with
        | head => exact absurd rfl hba
        | tail _ h => exact h
      have hstep : (b :: t).filter (fun x => decide (x = a)) =
          t.filter (fun x => decide (x = a)) := by
        simp [List.filter_cons, hba]
      rw [hstep]
      exact ih ht hat

/-- If the `ingredients` field validation succeeds on a present key, the
submitted ingredient ids are pairwise distinct. -/
theorem validateIngredientsField_ok_nodup {db : Db} {ing : List IngredientEntry} {u : Unit}
    (h : validateIngredientsField db (some ing) = Except.ok u) :
    (ing.map (fun e => e.id)).Nodup := by
  simp only [validateIngredientsField] at h
  split_ifs at h with h1 h2 h3 h4
  exact h4

/-- Field validation success propagates distinctness of ingredient ids. -/
theorem validateFields_ok_ingredients {db : Db} {p : RecipePayload} {u : Unit}
    {ing : List IngredientEntry}
    (h : validateFields db p = Except.ok u) (hing : p.ingredients = some ing) :
    (ing.map (fun e => e.id)).Nodup := by
  unfold validateFields at h
  split at h
  · simp at h
  · next u2 heq =>
    rw [hing] at heq
    exact validateIngredientsField_ok_nodup heq

/-- Field validation success means a present `cooking_time` is in range. -/
theorem validateFields_ok_cooking {db : Db} {p : RecipePayload} {u : Unit} {ct : Int}
    (h : validateFields db p = Except.ok u) (hct : p.cooking_time = some ct) :
    cooking_time_valid ct = true := by
  unfold validateFields at h
  split at h
  · simp at h
  · split at h
    · simp at h
    · rw [hct] at h
      simp only [validateCookingTimeField] at h
      split_ifs at h with hv
      exact hv

/-- A successful update with a present `ingredients` key leaves the join
table equal to the old rows of other recipes followed by the freshly
created rows. -/
theorem recipe_update_ok_ingredients {db : Db} {rid : Nat} {p : RecipePayload} {db2 : Db}
    {ing : List IngredientEntry}
    (hok : recipe_update db rid p = Except.ok db2) (hing : p.ingredients = some ing) :
    db2.ingredient_in_recipe =
      db.ingredient_in_recipe.filter (fun r => !(r.recipe == rid)) ++
        ing.map (fun e => { ingredient := e.id, recipe := rid, amount := e.amount }) := by
  unfold recipe_update at hok
  split at hok
  · simp at hok
  · split at hok
    · simp at hok
    · rw [hing] at hok
      simp only [Option.isNone_some, Bool.false_eq_true, if_false] at hok
      cases htg : p.tags with
      | none =>
        rw [htg] at hok
        simp at hok
      | some tg =>
        rw [htg] at hok
        simp only [Option.isNone_some, Bool.false_eq_true, if_false] at hok
        have hdb2 : db2 = create_ingredients
            (clearIngredients (setTags (updateRecipeAttrs db rid p) rid tg) rid) rid ing := by
          exact (Except.ok.injEq _ _).mp hok.symm
        rw [hdb2]
        simp [create_ingredients, clearIngredients, setTags, updateRecipeAttrs]

/-- The row-matching predicate used by the toggle views equals pair
membership. -/
theorem any_pair_iff (l : List (Nat × Nat)) (u t : Nat) :
    (l.any fun c => c.1 == u && c.2 == t) = true ↔ (u, t) ∈ l := by
  simp only [List.any_eq_true, Bool.and_eq_true, beq_iff_eq]
  constructor
  · rintro ⟨⟨x, y⟩, hmem, h1, h2⟩
    rw [← h1, ← h2]
    exact hmem
  · intro h
    exact ⟨(u, t), h, rfl, rfl⟩

/-- Deleting the rows of one pair removes that pair and keeps every other
pair. -/
theorem filter_pair_removal (l : List (Nat × Nat)) (u t : Nat) :
    ((u, t) ∉ l.filter (fun c => !(c.1 == u && c.2 == t))) ∧
    (∀ p : Nat × Nat, p ≠ (u, t) →
      (p ∈ l.filter (fun c => !(c.1 == u && c.2 == t)) ↔ p ∈ l)) := by
  constructor
  · intro hmem
    have h2 := (List.mem_filter.mp hmem).2
    simp at h2
  · intro p hp
    constructor
    · intro hmem
      exact (List.mem_filter.mp hmem).1
    · intro hmem
      refine List.mem_filter.mpr ⟨hmem, ?_⟩
      rcases p with ⟨x, y⟩
      by_cases hx : x = u
      · have hy : y ≠ t := by
          intro hy
          exact hp (by rw [hx, hy])
        simp [hx, hy]
      · simp [hx]

/-- For an anonymous caller the two boolean flags change nothing in the
filter pipeline. -/
theorem applyFilters_anonymous (db : Db) (f c : Option String) (au : Option Nat)
    (tg : List String) :
    applyFilters db none ⟨f, c, au, tg⟩ = applyFilters db none ⟨none, none, au, tg⟩ := by
  unfold applyFilters get_queryset
  cases f with
  | none =>
    cases c with
    | none => rfl
    | some cv =>
      cases hpc : parseNullBool cv <;>
        simp [filter_is_in_shopping_cart, hpc]
  | some fv =>
    cases c with
    | none =>
      cases hpf : parseNullBool fv <;>
        simp [filter_is_favorited, hpf]
    | some cv =>
      cases hpf : parseNullBool fv <;> cases hpc : parseNullBool cv <;>
        simp [filter_is_favorited, filter_is_in_shopping_cart, hpf, hpc]

/-! ## Claim theorems -/

/-- Claim C1: for every user, the shopping-list output has exactly one
aggregated row per distinct (ingredient name, measurement unit) pair
occurring among the cart rows, its amount is the sum of the amounts of
that group, and the corresponding output line is
`name (unit) - amount` followed by a newline; rows sharing the key are
merged into that single entry. -/
theorem shopping_list_one_line_per_key (db : Db) (u : Nat) (k : String × String)
    (hk : k ∈ (joinedRows db u).map Prod.fst) :
    ((shoppingListPairs db u).filter (fun p => decide (p.1 = k))).length = 1 ∧
    (k, amountTotal db u k) ∈ shoppingListPairs db u ∧
    formatLine k (amountTotal db u k) ∈ shoppingListLines db u := by
  have hk2 : k ∈ groupKeys db u := by
    simpa [groupKeys, List.mem_dedup] using hk
  have hnd : (groupKeys db u).Nodup := List.nodup_dedup _
  refine ⟨?_, ?_, ?_⟩
  · have heq : (shoppingListPairs db u).filter (fun p => decide (p.1 = k)) =
        ((groupKeys db u).filter (fun x => decide (x = k))).map
          (fun x => (x, amountTotal db u x)) := by
      unfold shoppingListPairs
      rw [List.filter_map]
      rfl
    rw [heq, List.length_map]
    exact length_filter_eq_one_of_nodup hnd hk2
  · exact List.mem_map.mpr ⟨k, hk2, rfl⟩
  · unfold shoppingListLines
    exact List.mem_map.mpr ⟨(k, amountTotal db u k), List.mem_map.mpr ⟨k, hk2, rfl⟩, rfl⟩

/-- Witness for C1 at the flour/eggs example of the spec (§8). -/
theorem shopping_list_one_line_per_key_witness :
    (("flour", "g") ∈ (joinedRows exDb1 7).map Prod.fst) ∧
    (((shoppingListPairs exDb1 7).filter (fun p => decide (p.1 = ("flour", "g")))).length = 1 ∧
      (("flour", "g"), amountTotal exDb1 7 ("flour", "g")) ∈ shoppingListPairs exDb1 7 ∧
      formatLine ("flour", "g") (amountTotal exDb1 7 ("flour", "g")) ∈ shoppingListLines exDb1 7) :=
  ⟨by decide, shopping_list_one_line_per_key exDb1 7 ("flour", "g") (by decide)⟩

/-- Claim C2: after a successful update whose payload carries an
`ingredients` list of K entries, the join rows of that recipe are exactly
the K submitted (ingredient, amount) pairs; nothing from the previous set
survives and nothing is merged. -/
theorem update_replaces_ingredient_set (db : Db) (rid : Nat) (p : RecipePayload) (db2 : Db)
    (ing : List IngredientEntry)
    (hok : recipe_update db rid p = Except.ok db2) (hing : p.ingredients = some ing) :
    db2.ingredient_in_recipe.filter (fun r => r.recipe == rid) =
      ing.map (fun e => { ingredient := e.id, recipe := rid, amount := e.amount }) ∧
    (db2.ingredient_in_recipe.filter (fun r => r.recipe == rid)).length = ing.length := by
  have hiir := recipe_update_ok_ingredients hok hing
  have key : db2.ingredient_in_recipe.filter (fun r => r.recipe == rid) =
      ing.map (fun e =>
        ({ ingredient := e.id, recipe := rid, amount := e.amount } : IngredientInRecipe)) := by
    rw [hiir, List.filter_append]
    have h1 : (db.ingredient_in_recipe.filter (fun r => !(r.recipe == rid))).filter
        (fun r => r.recipe == rid) = [] := by
      rw [List.filter_eq_nil_iff]
      intro x hx
      have hx2 := (List.mem_filter.mp hx).2
      simp only [Bool.not_eq_eq_eq_not, Bool.not_true] at hx2
      simp [hx2]
    have h2 : (ing.map (fun e =>
        ({ ingredient := e.id, recipe := rid, amount := e.amount } : IngredientInRecipe))).filter
        (fun r => r.recipe == rid) =
        ing.map (fun e =>
          ({ ingredient := e.id, recipe := rid, amount := e.amount } : IngredientInRecipe)) := by
      rw [List.filter_eq_self]
      intro x hx
      obtain ⟨e, he, hxe⟩ := List.mem_map.mp hx
      rw [← hxe]
      simp
    rw [h1, h2, List.nil_append]
  exact ⟨key, by rw [key, List.length_map]⟩

/-- Witness for C2: updating recipe 1 of `exDbU` with two submitted entries
leaves exactly those two join rows for the recipe. -/
theorem update_replaces_ingredient_set_witness :
    recipe_update exDbU 1 exPayload2 = Except.ok exDbU2res ∧
    exPayload2.ingredients = some exIng2 ∧
    (exDbU2res.ingredient_in_recipe.filter (fun r => r.recipe == 1)).length = 2 :=
  ⟨rfl, rfl,
    (update_replaces_ingredient_set exDbU 1 exPayload2 exDbU2res exIng2 rfl rfl).2⟩

/-- Counterexample to claim C3: the recipe of `exDbU` exists and
`exPayload3` omits only the `ingredients` key, yet the update does not
succeed on the remaining fields — the serializer `validate` rejects it. -/
theorem missing_key_update_counterexample :
    exPayload3.ingredients = none ∧
    recipe_update exDbU 1 exPayload3 = Except.error "ingredients: this field is required" :=
  ⟨rfl, rfl⟩

/-- Claim C3 as amended: a partial-update payload whose `ingredients` or
`tags` key is absent is rejected with a validation error, so no change is
applied and the existing associations are left unchanged. -/
theorem missing_key_update_rejected (db : Db) (rid : Nat) (p : RecipePayload)
    (h : p.ingredients = none ∨ p.tags = none) :
    exceptOk (recipe_update db rid p) = false := by
  unfold recipe_update
  split
  · rfl
  · split
    · rfl
    · rcases h with h | h
      · simp [h, exceptOk]
      · cases hi : p.ingredients with
        | none => simp [hi, exceptOk]
        | some ing => simp [hi, h, exceptOk]

/-- Witness for the amended C3 at the concrete store and payload. -/
theorem missing_key_update_rejected_witness :
    exPayload3.ingredients = none ∧
    exceptOk (recipe_update exDbU 1 exPayload3) = false :=
  ⟨rfl, missing_key_update_rejected exDbU 1 exPayload3 (Or.inl rfl)⟩

/-- Claim C4: a create payload that lists the same ingredient id twice is
rejected before any write: the request returns a validation error and no
recipe or join row is produced (the model only returns a new store on
success). -/
theorem duplicate_ingredient_create_rejected (db : Db) (author rid : Nat) (p : RecipePayload)
    (ing : List IngredientEntry) (hing : p.ingredients = some ing)
    (hdup : ¬ (ing.map (fun e => e.id)).Nodup) :
    exceptOk (recipe_create db author rid p) = false := by
  unfold recipe_create
  cases hv : validateFields db p with
  | error e => rfl
  | ok u =>
    exact absurd (validateFields_ok_ingredients hv hing) hdup

/-- Witness for C4: `exPayload4` submits ingredient id 1 twice and is
rejected. -/
theorem duplicate_ingredient_create_rejected_witness :
    exPayload4.ingredients = some [⟨1, 2⟩, ⟨1, 3⟩] ∧
    exceptOk (recipe_create exDbU 5 9 exPayload4) = false :=
  ⟨rfl, duplicate_ingredient_create_rejected exDbU 5 9 exPayload4 [⟨1, 2⟩, ⟨1, 3⟩]
    rfl (by decide)⟩

/-- Claim C8: `cooking_time` 0 and 32001 fail the bound check while 1 and
32000 pass it (inclusive bounds), and a payload with an out-of-range
`cooking_time` is rejected by both create and update. -/
theorem cooking_time_bounds :
    cooking_time_valid 0 = false ∧ cooking_time_valid 32001 = false ∧
    cooking_time_valid 1 = true ∧ cooking_time_valid 32000 = true ∧
    (∀ (db : Db) (author rid : Nat) (p : RecipePayload) (ct : Int),
      p.cooking_time = some ct → cooking_time_valid ct = false →
      exceptOk (recipe_create db author rid p) = false ∧
      exceptOk (recipe_update db rid p) = false) := by
  refine ⟨by decide, by decide, by decide, by decide, ?_⟩
  intro db author rid p ct hct hval
  constructor
  · unfold recipe_create
    cases hv : validateFields db p with
    | error e => rfl
    | ok u =>
      have := validateFields_ok_cooking hv hct
      rw [this] at hval
      cases hval
  · unfold recipe_update
    split
    · rfl
    · cases hv : validateFields db p with
      | error e => rfl
      | ok u =>
        have := validateFields_ok_cooking hv hct
        rw [this] at hval
        cases hval

/-- Witness for C8 with `cooking_time = 0`. -/
theorem cooking_time_bounds_witness :
    exPayload8.cooking_time = some 0 ∧
    (exceptOk (recipe_create exDbU 5 9 exPayload8) = false ∧
     exceptOk (recipe_update exDbU 1 exPayload8) = false) :=
  ⟨rfl, cooking_time_bounds.2.2.2.2 exDbU 5 9 exPayload8 0 rfl (by decide)⟩

/-- Counterexample to claim C5: for the Subscription relation the pair
(1, 1) is absent and user 1 exists, yet the add does not transition to
present — the self-subscription guard rejects it first. -/
theorem relationship_state_machine_counterexample :
    (1, 1) ∉ exDb5.subscriptions ∧
    exDb5.users.any (fun x => x == 1) = true ∧
    exceptOk (subscribe_author exDb5 1 1) = false := by
  refine ⟨by decide, by decide, by decide⟩

/-- Claim C5 as amended: Favorite and ShoppingCart behave as the two-state
machine for every (user, recipe) pair, and Subscription does so for every
(user, author) pair with user distinct from author (a self add always
fails, see the C6 theorem): add when absent inserts the pair, add when
present fails and changes nothing, remove when present deletes exactly the
rows of that pair, remove when absent fails and deletes nothing. -/
theorem relationship_state_machine (db : Db) (u t a : Nat)
    (hr : db.recipes.any (fun r => r.id == t) = true)
    (ha : db.users.any (fun x => x == a) = true)
    (hua : u ≠ a) :
    ((u, t) ∉ db.shopping_cart → shopping_cart_add db u t = Except.ok { db with shopping_cart := db.shopping_cart ++ [(u, t)] }) ∧
    ((u, t) ∈ db.shopping_cart → exceptOk (shopping_cart_add db u t) = false) ∧
    ((u, t) ∈ db.shopping_cart →
      shopping_cart_remove db u t = Except.ok { db with shopping_cart := db.shopping_cart.filter (fun c => !(c.1 == u && c.2 == t)) } ∧
      (u, t) ∉ db.shopping_cart.filter (fun c => !(c.1 == u && c.2 == t)) ∧
      ∀ p : Nat × Nat, p ≠ (u, t) → (p ∈ db.shopping_cart.filter (fun c => !(c.1 == u && c.2 == t)) ↔ p ∈ db.shopping_cart)) ∧
    ((u, t) ∉ db.shopping_cart → exceptOk (shopping_cart_remove db u t) = false) ∧
    ((u, t) ∉ db.favorites → favorite_add db u t = Except.ok { db with favorites := db.favorites ++ [(u, t)] }) ∧
    ((u, t) ∈ db.favorites → exceptOk (favorite_add db u t) = false) ∧
    ((u, t) ∈ db.favorites →
      favorite_remove db u t = Except.ok { db with favorites := db.favorites.filter (fun c => !(c.1 == u && c.2 == t)) } ∧
      (u, t) ∉ db.favorites.filter (fun c => !(c.1 == u && c.2 == t)) ∧
      ∀ p : Nat × Nat, p ≠ (u, t) → (p ∈ db.favorites.filter (fun c => !(c.1 == u && c.2 == t)) ↔ p ∈ db.favorites)) ∧
    ((u, t) ∉ db.favorites → exceptOk (favorite_remove db u t) = false) ∧
    ((u, a) ∉ db.subscriptions → subscribe_author db u a = Except.ok { db with subscriptions := db.subscriptions ++ [(u, a)] }) ∧
    ((u, a) ∈ db.subscriptions → exceptOk (subscribe_author db u a) = false) ∧
    ((u, a) ∈ db.subscriptions →
      unsubscribe_author db u a = Except.ok { db with subscriptions := db.subscriptions.filter (fun s => !(s.1 == u && s.2 == a)) } ∧
      (u, a) ∉ db.subscriptions.filter (fun s => !(s.1 == u && s.2 == a)) ∧
      ∀ p : Nat × Nat, p ≠ (u, a) → (p ∈ db.subscriptions.filter (fun s => !(s.1 == u && s.2 == a)) ↔ p ∈ db.subscriptions)) ∧
    ((u, a) ∉ db.subscriptions → exceptOk (unsubscribe_author db u a) = false) := by
  have hne : (u == a) = false := by simp [hua]
  have habsent : ∀ (l : List (Nat × Nat)) (x y : Nat), (x, y) ∉ l →
      (l.any fun c => c.1 == x && c.2 == y) = false := by
    intro l x y hmem
    cases hany : l.any fun c => c.1 == x && c.2 == y with
    | false => rfl
    | true => exact absurd ((any_pair_iff l x y).mp hany) hmem
  refine ⟨?_, ?_, ?_, ?_, ?_, ?_, ?_, ?_, ?_, ?_, ?_, ?_⟩
  · intro h
    simp [shopping_cart_add, hr, habsent _ _ _ h]
  · intro h
    simp [shopping_cart_add, hr, (any_pair_iff _ u t).mpr h, exceptOk]
  · intro h
    refine ⟨?_, (filter_pair_removal db.shopping_cart u t).1,
      (filter_pair_removal db.shopping_cart u t).2⟩
    simp [shopping_cart_remove, hr, (any_pair_iff _ u t).mpr h]
  · intro h
    simp [shopping_cart_remove, hr, habsent _ _ _ h, exceptOk]
  · intro h
    simp [favorite_add, hr, habsent _ _ _ h]
  · intro h
    simp [favorite_add, hr, (any_pair_iff _ u t).mpr h, exceptOk]
  · intro h
    refine ⟨?_, (filter_pair_removal db.favorites u t).1,
      (filter_pair_removal db.favorites u t).2⟩
    simp [favorite_remove, hr, (any_pair_iff _ u t).mpr h]
  · intro h
    simp [favorite_remove, hr, habsent _ _ _ h, exceptOk]
  · intro h
    simp [subscribe_author, ha, hne, habsent _ _ _ h]
  · intro h
    simp [subscribe_author, ha, hne, (any_pair_iff _ u a).mpr h, exceptOk]
  · intro h
    refine ⟨?_, (filter_pair_removal db.subscriptions u a).1,
      (filter_pair_removal db.subscriptions u a).2⟩
    simp [unsubscribe_author, ha, (any_pair_iff _ u a).mpr h]
  · intro h
    simp [unsubscribe_author, ha, habsent _ _ _ h, exceptOk]

/-- Witness for the amended C5: concrete transitions of the machine in
`exDb5`. -/
theorem relationship_state_machine_witness :
    ((1, 1) ∈ exDb5.shopping_cart) ∧
    exceptOk (shopping_cart_add exDb5 1 1) = false ∧
    ((2, 1) ∉ exDb5.shopping_cart) ∧
    shopping_cart_add exDb5 2 1 = Except.ok { exDb5 with shopping_cart := exDb5.shopping_cart ++ [(2, 1)] } ∧
    shopping_cart_remove exDb5 1 1 = Except.ok { exDb5 with shopping_cart := exDb5.shopping_cart.filter (fun c => !(c.1 == 1 && c.2 == 1)) } ∧
    ((2, 1) ∉ exDb5.subscriptions) ∧
    exceptOk (unsubscribe_author exDb5 2 1) = false :=
  ⟨by decide,
    (relationship_state_machine exDb5 1 1 2 (by decide) (by decide) (by decide)).2.1 (by decide),
    by decide,
    (relationship_state_machine exDb5 2 1 1 (by decide) (by decide) (by decide)).1 (by decide),
    ((relationship_state_machine exDb5 1 1 2 (by decide) (by decide) (by decide)).2.2.1 (by decide)).1,
    by decide,
    (relationship_state_machine exDb5 2 1 1 (by decide) (by decide) (by decide)).2.2.2.2.2.2.2.2.2.2.2 (by decide)⟩

/-- Claim C6: a subscription-add targeting the requesting user always
fails with the self-subscription validation error and creates no row; the
self check fires before the existence check (the statement holds for every
store, including one where the pair is already present). -/
theorem self_subscribe_always_fails (db : Db) (u : Nat)
    (hu : db.users.any (fun x => x == u) = true) :
    subscribe_author db u u = Except.error "cannot subscribe to yourself" := by
  simp [subscribe_author, hu]

/-- Witness for C6 in a store where user 1 is even already self-subscribed:
the error is still the self-subscription one, not the conflict. -/
theorem self_subscribe_always_fails_witness :
    exDb6.users.any (fun x => x == 1) = true ∧
    (1, 1) ∈ exDb6.subscriptions ∧
    subscribe_author exDb6 1 1 = Except.error "cannot subscribe to yourself" :=
  ⟨by decide, by decide, self_subscribe_always_fails exDb6 1 (by decide)⟩

/-- Claim C7: for an anonymous caller the `is_favorited` and
`is_in_shopping_cart` parameters are silently ignored whatever their
value: the result is the one for the remaining parameters, and with no
remaining parameters it is the unfiltered recipe list, not an error. -/
theorem anonymous_flags_ignored (db : Db) (q : RecipeQuery) :
    listRecipes db none q = listRecipes db none { q with is_favorited := none, is_in_shopping_cart := none } ∧
    listRecipes db none { is_favorited := q.is_favorited, is_in_shopping_cart := q.is_in_shopping_cart, author := none, tags := [] } = Except.ok (db.recipes.map (fun r => r.id)) := by
  rcases q with ⟨f, c, au, tg⟩
  constructor
  · have h := applyFilters_anonymous db f c au tg
    simp [listRecipes, h]
  · have h := applyFilters_anonymous db f c none []
    unfold listRecipes
    rw [h]
    rfl

/-- Claim C9: with a non-empty multi-valued `tags` parameter the result is
exactly the recipes of the rest of the pipeline that link at least one of
the submitted slugs (OR semantics): matching one slug suffices, matching
none excludes. -/
theorem tags_filter_or_semantics (db : Db) (user : Option Nat) (q : RecipeQuery)
    (res base : List Nat)
    (hne : q.tags ≠ [])
    (hres : listRecipes db user q = Except.ok res)
    (hbase : listRecipes db user { q with tags := [] } = Except.ok base) :
    ∀ rid, rid ∈ res ↔ (rid ∈ base ∧ ∃ s ∈ q.tags, recipeHasTagSlug db rid s = true) := by
  have hqt : q.tags.isEmpty = false := by
    cases hq : q.tags with
    | nil => exact absurd hq hne
    | cons s l => rfl
  have hvalid : tagsParamValid db q.tags = true := by
    by_contra hv
    rw [Bool.not_eq_true] at hv
    unfold listRecipes at hres
    rw [hv] at hres
    simp at hres
  unfold listRecipes at hres hbase
  rw [hvalid] at hres
  simp only [if_true] at hres
  simp only [tagsParamValid, List.all_nil, if_true] at hbase
  have hres2 : res = filter_tags db (applyFilters db user q) q.tags := by
    simpa using hres.symm
  have hbase2 : base = filter_tags db (applyFilters db user { q with tags := [] }) [] := by
    simpa using hbase.symm
  have hsame : applyFilters db user { q with tags := [] } = applyFilters db user q := by
    rcases q with ⟨f, c, au, tg⟩
    rfl
  rw [hsame] at hbase2
  simp only [filter_tags, List.isEmpty_nil, if_true] at hbase2
  intro rid
  rw [hres2, hbase2]
  simp [filter_tags, hqt, List.mem_filter, List.any_eq_true]

/-- Witness for C9: `exQuery9` asks for breakfast or lunch; recipe 1
(breakfast only) is included, recipe 2 (no tags) is excluded. -/
theorem tags_filter_or_semantics_witness :
    listRecipes exDb9 none exQuery9 = Except.ok [1] ∧
    listRecipes exDb9 none { exQuery9 with tags := [] } = Except.ok [1, 2] ∧
    ((1 ∈ [1]) ↔ ((1 ∈ [1, 2]) ∧ ∃ s ∈ exQuery9.tags, recipeHasTagSlug exDb9 1 s = true)) ∧
    ((2 ∈ [1]) ↔ ((2 ∈ [1, 2]) ∧ ∃ s ∈ exQuery9.tags, recipeHasTagSlug exDb9 2 s = true)) :=
  ⟨rfl, rfl,
    tags_filter_or_semantics exDb9 none exQuery9 [1] [1, 2] (by decide) rfl rfl 1,
    tags_filter_or_semantics exDb9 none exQuery9 [1] [1, 2] (by decide) rfl rfl 2⟩

/-- Claim C10: every aggregated amount is the exact integer sum of its
group, and the total is not capped: in `exDb10` every stored amount is
within `[1, 32000]` yet the aggregated flour total is 48000. -/
theorem shopping_list_exact_sum :
    (∀ (db : Db) (u : Nat) (pr : (String × String) × Int),
       pr ∈ shoppingListPairs db u →
       pr.2 = (((joinedRows db u).filter (fun q => decide (q.1 = pr.1))).map Prod.snd).sum) ∧
    exDb10.ingredient_in_recipe.all (fun r => amount_valid r.amount) = true ∧
    ((("flour", "g"), (48000 : Int)) ∈ shoppingListPairs exDb10 1) ∧
    MAX_VALUE < (48000 : Int) := by
  refine ⟨?_, by decide, by decide, by decide⟩
  intro db u pr hpr
  unfold shoppingListPairs at hpr
  obtain ⟨k, hk, hEq⟩ := List.mem_map.mp hpr
  subst hEq
  rfl

/-- Witness for C10: the 48000 flour entry is the exact sum of its group. -/
theorem shopping_list_exact_sum_witness :
    ((("flour", "g"), (48000 : Int)) ∈ shoppingListPairs exDb10 1) ∧
    ((48000 : Int) =
      (((joinedRows exDb10 1).filter (fun q => decide (q.1 = ("flour", "g")))).map Prod.snd).sum) :=
  ⟨by decide, shopping_list_exact_sum.1 exDb10 1 (("flour", "g"), 48000) (by decide)⟩

end Foodgram
